import Mathlib

/-!
Shallow embedding of `src/state_history_rocksdb.hpp` (the tiered key-value
access layer of `history-tools`): the `kv_context_rocksdb` tiered view, the
`kv_iterator_rocksdb` cursor, the `db_view_state` session state and the
`db_callbacks` call gateway (with `kv_environment`'s no-op bounds check).

Machine integers (`uint32_t`, `uint64_t`) are modelled as `Nat`; byte buffers
as `List Nat`; C++ exceptions thrown by `eosio::check(cond, msg)` as
`Except String` results carrying the exact message string. In every operation
except the gateway `kv_it_create`, the C++ throw precedes any mutation, so an
`Except.error` result leaves the caller's session state exactly as it was. The
gateway `kv_it_create` is the one exception: the C++ pops the free list or
appends an empty slot *before* the budget check can throw, and the exception
propagates with that mutation intact; it is therefore modelled as returning
the result together with the post-call session state, the mutation surviving
the failure.

The underlying `chain_kv` versioned store (`chain_kv::view`,
`chain_kv::view::iterator`, `chain_kv::compare_key`) and the `abieos::name`
encoding are external collaborators, not part of this repository's sources;
they are modelled from the spec where needed (each such definition says so in
its doc comment).
-/

namespace StateHistoryRdb

/-- Byte sequences (C++ `const char* + uint32_t` buffers). -/
abbrev Bytes := List Nat

/-- Modelled from the spec: the prefix-respecting lexicographic total order on
byte keys used by the external `chain_kv` store (`chain_kv::compare_key`
restricted to present keys): memcmp order, shorter prefix first. -/
def byteCompare : Bytes → Bytes → Int
  | [], [] => 0
  | [], _ :: _ => -1
  | _ :: _, [] => 1
  | a :: as, b :: bs =>
    if a < b then -1 else if b < a then 1 else byteCompare as bs

/-- Strict key order as a boolean, derived from `byteCompare`. -/
def byteLtB (a b : Bytes) : Bool := decide (byteCompare a b < 0)

/-- The read-window copy shared by `kv_get_data`, `kv_it_key` and
`kv_it_value`: `if (offset < len) memcpy(dest, src + offset, min(size, len - offset))`.
Returns the bytes that the `memcpy` writes into the destination. -/
def window (b : Bytes) (offset cap : Nat) : Bytes :=
  if offset < b.length then (b.drop offset).take (min cap (b.length - offset)) else []

/-- Modelled from the spec: the external versioned store's live contract data,
one binding per (contract identifier, key). `chain_kv::view` scopes every
operation by the contract's 64-bit identifier, so the map key is the pair. -/
abbrev Store := List ((Nat × Bytes) × Bytes)

/-- Modelled from the spec: `chain_kv::view::get(contract, key) -> maybe(value)`. -/
def storeGet (s : Store) (contract : Nat) (key : Bytes) : Option Bytes :=
  (s.find? (fun e => decide (e.1 = (contract, key)))).map (fun e => e.2)

/-- Modelled from the spec: `chain_kv::view::set(contract, key, value)` (upsert). -/
def storeSet (s : Store) (contract : Nat) (key value : Bytes) : Store :=
  ((contract, key), value) :: s.filter (fun e => decide (¬ e.1 = (contract, key)))

/-- Modelled from the spec: `chain_kv::view::erase(contract, key)` (no error if
the key is absent). -/
def storeErase (s : Store) (contract : Nat) (key : Bytes) : Store :=
  s.filter (fun e => decide (¬ e.1 = (contract, key)))

/-- `kv_database_config` with its default member initializers. -/
structure kv_database_config where
  max_key_size : Nat := 1024
  max_value_size : Nat := 262144
  max_iterators : Nat := 1024
deriving DecidableEq

/-- The configuration `db_view_state` always uses: `const kv_database_config limits;`
is default-constructed, so every field keeps its default value. -/
def defaultLimits : kv_database_config := {}

/-- `enum class kv_it_stat { iterator_ok = 0, iterator_erased = -1, iterator_end = -2 }`. -/
inductive kv_it_stat where
  | iterator_ok
  | iterator_erased
  | iterator_end
deriving DecidableEq

/-- The `static_cast<int32_t>` applied by `db_callbacks` to each status. -/
def kv_it_stat.toInt : kv_it_stat → Int
  | .iterator_ok => 0
  | .iterator_erased => -1
  | .iterator_end => -2

/-- The two tiers of a session: `kv_ram` (`eosio.kvram`) and `kv_disk`
(`eosio.kvdisk`). Identifies which context's `num_iterators` counter a
cursor's constructor incremented (and its destructor will decrement), and
which `chain_kv::view` object it traverses. -/
inductive Tier where
  | ram
  | disk
deriving DecidableEq

/-- `kv_iterator_rocksdb`: a cursor bound to one view (identified by its
tier within the session), one contract, and a sub-range restriction.
The `chain_kv::view::iterator` inside it is external; modelled from the spec
as the ordered list of in-range `(key, value)` entries together with a
position (`pos = entries.length` means out-of-bounds / End) and the erased
flag ("the key-value pair that the iterator used to be positioned at was
erased"). -/
structure kv_iterator_rocksdb where
  db : Tier
  contract : Nat
  pfx : Bytes
  entries : List (Bytes × Bytes)
  pos : Nat
  erased : Bool
deriving DecidableEq

namespace kv_iterator_rocksdb

/-- Modelled from the spec: end-detection of the external cursor primitive. -/
def is_end (it : kv_iterator_rocksdb) : Bool := decide (it.entries.length ≤ it.pos)

/-- Modelled from the spec: the external cursor's current `(key, value)` pair,
absent when out-of-bounds. -/
def get_kv (it : kv_iterator_rocksdb) : Option (Bytes × Bytes) := it.entries.get? it.pos

/-- `kv_it_status`: end is checked before erased, otherwise ok. -/
def kv_it_status (it : kv_iterator_rocksdb) : kv_it_stat :=
  if it.is_end then .iterator_end
  else if it.erased then .iterator_erased
  else .iterator_ok

/-- Modelled from the spec: `chain_kv::compare` on two cursors — the
prefix-respecting total order on their current keys, an out-of-bounds cursor
sorting after every key. -/
def compareOptKv : Option (Bytes × Bytes) → Option (Bytes × Bytes) → Int
  | none, none => 0
  | none, some _ => 1
  | some _, none => -1
  | some a, some b => byteCompare a.1 b.1

/-- `kv_it_compare`: checks the two cursors share the view and contract,
then that neither is erased, then compares positions. -/
def kv_it_compare (it rhs : kv_iterator_rocksdb) : Except String Int :=
  if ¬ (it.db = rhs.db ∧ it.contract = rhs.contract) then
    .error "Incompatible key-value iterators"
  else if it.erased then .error "Iterator to erased element"
  else if rhs.erased then .error "Iterator to erased element"
  else .ok (compareOptKv it.get_kv rhs.get_kv)

/-- `kv_it_key_compare`: compares the cursor's current key against a supplied
key (`chain_kv::compare_key(kv_it.get_kv(), key_value{{key, size}, {}})`). -/
def kv_it_key_compare (it : kv_iterator_rocksdb) (key : Bytes) : Except String Int :=
  if it.erased then .error "Iterator to erased element"
  else .ok (compareOptKv it.get_kv (some (key, [])))

/-- `kv_it_move_to_end`: unconditionally repositions out-of-bounds and returns
`iterator_end`. -/
def kv_it_move_to_end (it : kv_iterator_rocksdb) : kv_iterator_rocksdb × kv_it_stat :=
  ({ it with pos := it.entries.length, erased := false }, .iterator_end)

/-- `kv_it_next`: fails on an erased cursor, otherwise steps forward
(modelled from the spec: one key forward, past the last key is End) and
returns the resulting status. -/
def kv_it_next (it : kv_iterator_rocksdb) : Except String (kv_iterator_rocksdb × kv_it_stat) :=
  if it.erased then .error "Iterator to erased element"
  else
    let it2 := { it with pos := if it.pos < it.entries.length then it.pos + 1 else it.entries.length }
    .ok (it2, it2.kv_it_status)

/-- `kv_it_prev`: fails on an erased cursor, otherwise steps backward
(modelled from the spec: one key backward, past the first key is End) and
returns the resulting status. -/
def kv_it_prev (it : kv_iterator_rocksdb) : Except String (kv_iterator_rocksdb × kv_it_stat) :=
  if it.erased then .error "Iterator to erased element"
  else
    let it2 := { it with pos := if it.pos = 0 then it.entries.length else it.pos - 1 }
    .ok (it2, it2.kv_it_status)

/-- `kv_it_lower_bound`: always succeeds; modelled from the spec, the external
`lower_bound` repositions to the first in-range key that is not below the
argument (or out-of-bounds if none) and clears the erased flag; the resulting
status is returned. -/
def kv_it_lower_bound (it : kv_iterator_rocksdb) (key : Bytes) : kv_iterator_rocksdb × kv_it_stat :=
  let it2 := { it with pos := it.entries.findIdx (fun e => ! byteLtB e.1 key), erased := false }
  (it2, it2.kv_it_status)

/-- `kv_it_key`: fails on an erased cursor; with a current pair, copies the
read window of the key and reports the key's full length; out-of-bounds
reports length 0 with `iterator_end`. Result: (status, bytes copied, actual_size). -/
def kv_it_key (it : kv_iterator_rocksdb) (offset cap : Nat) :
    Except String (kv_it_stat × Bytes × Nat) :=
  if it.erased then .error "Iterator to erased element"
  else
    match it.get_kv with
    | some kv => .ok (.iterator_ok, window kv.1 offset cap, kv.1.length)
    | none => .ok (.iterator_end, [], 0)

/-- `kv_it_value`: as `kv_it_key` but over the current value. -/
def kv_it_value (it : kv_iterator_rocksdb) (offset cap : Nat) :
    Except String (kv_it_stat × Bytes × Nat) :=
  if it.erased then .error "Iterator to erased element"
  else
    match it.get_kv with
    | some kv => .ok (.iterator_ok, window kv.2 offset cap, kv.2.length)
    | none => .ok (.iterator_end, [], 0)

end kv_iterator_rocksdb

/-- Does `pfx` start the byte sequence? Used to restrict an iterator's
entries to its sub-range prefix. -/
def startsWithB : Bytes → Bytes → Bool
  | [], _ => true
  | _ :: _, [] => false
  | a :: as, b :: bs => decide (a = b) && startsWithB as bs

/-- Insert one entry into a key-sorted entry list (insertion step). -/
def insortEntry (e : Bytes × Bytes) : List (Bytes × Bytes) → List (Bytes × Bytes)
  | [] => [e]
  | f :: fs => if byteLtB e.1 f.1 then e :: f :: fs else f :: insortEntry e fs

/-- Sort an entry list by key (insertion sort). -/
def sortEntries (l : List (Bytes × Bytes)) : List (Bytes × Bytes) :=
  l.foldr insortEntry []

/-- Modelled from the spec: the prefix-ordered in-range entries a fresh
external cursor ranges over — the given contract's bindings whose key starts
with the sub-range prefix, in key order. -/
def inRangeEntries (s : Store) (contract : Nat) (pfx : Bytes) : List (Bytes × Bytes) :=
  sortEntries ((s.filter (fun e => decide (e.1.1 = contract) && startsWithB pfx e.1.2)).map
    (fun e => (e.1.2, e.2)))

/-- `kv_context_rocksdb`: one tiered view — database identifier, receiver,
limits, the view over the store, the live-cursor counter and the transient
read buffer (`temp_data_buffer`). -/
structure kv_context_rocksdb where
  database_id : Nat
  receiver : Nat
  limits : kv_database_config
  store : Store
  num_iterators : Nat := 0
  temp_data_buffer : Option Bytes := none
deriving DecidableEq

namespace kv_context_rocksdb

/-- `kv_erase`: ownership check, then clears the transient read buffer and
deletes through to the store. The failing check throws before any mutation. -/
def kv_erase (ctx : kv_context_rocksdb) (contract : Nat) (key : Bytes) :
    Except String kv_context_rocksdb :=
  if ¬ contract = ctx.receiver then .error "Can not write to this key"
  else .ok { ctx with temp_data_buffer := none, store := storeErase ctx.store contract key }

/-- `kv_set`: ownership check, key and value size checks against the limits,
then clears the transient read buffer and writes through to the store. Every
failing check throws before any mutation. -/
def kv_set (ctx : kv_context_rocksdb) (contract : Nat) (key value : Bytes) :
    Except String kv_context_rocksdb :=
  if ¬ contract = ctx.receiver then .error "Can not write to this key"
  else if ¬ key.length ≤ ctx.limits.max_key_size then .error "Key too large"
  else if ¬ value.length ≤ ctx.limits.max_value_size then .error "Value too large"
  else .ok { ctx with temp_data_buffer := none,
                      store := storeSet ctx.store contract key value }

/-- `kv_get`: no ownership check; stores the lookup result (present or absent)
in the transient read buffer and returns the present flag and value length. -/
def kv_get (ctx : kv_context_rocksdb) (contract : Nat) (key : Bytes) :
    Bool × Nat × kv_context_rocksdb :=
  match storeGet ctx.store contract key with
  | some v => (true, v.length, { ctx with temp_data_buffer := some v })
  | none => (false, 0, { ctx with temp_data_buffer := none })

/-- `kv_get_data`: copies a window of the transient read buffer (empty when
the buffer is clear) and returns the buffer's total length. -/
def kv_get_data (ctx : kv_context_rocksdb) (offset cap : Nat) : Bytes × Nat :=
  let temp := ctx.temp_data_buffer.getD []
  (window temp offset cap, temp.length)

/-- `kv_it_create` (context level): budget check against
`limits.max_iterators`, then constructs a cursor (whose constructor
increments this context's `num_iterators`). -/
def kv_it_create (ctx : kv_context_rocksdb) (t : Tier) (contract : Nat) (pfx : Bytes) :
    Except String (kv_iterator_rocksdb × kv_context_rocksdb) :=
  if ctx.num_iterators < ctx.limits.max_iterators then
    .ok ({ db := t, contract := contract, pfx := pfx,
           entries := inRangeEntries ctx.store contract pfx,
           pos := (inRangeEntries ctx.store contract pfx).length,
           erased := false },
         { ctx with num_iterators := ctx.num_iterators + 1 })
  else .error "Too many iterators"

end kv_context_rocksdb

/-- Modelled from the spec: the packed `abieos::name` value of a string
(each base-32 symbol occupies five bits from the top of the 64-bit word);
the encoding itself lives in the external `abieos.hpp`. -/
def name_value (cs : List Nat) : Nat :=
  cs.foldl (fun a c => a * 32 + c) 0 * 2 ^ (64 - 5 * cs.length)

/-- `kvram_id` = name "eosio.kvram". -/
def kvram_id : Nat := name_value [10, 20, 24, 14, 20, 0, 16, 27, 23, 6, 18]

/-- `kvdisk_id` = name "eosio.kvdisk". -/
def kvdisk_id : Nat := name_value [10, 20, 24, 14, 20, 0, 16, 27, 9, 14, 24, 16]

/-- `db_view_state`: the per-execution-context session state — receiver,
the (default-constructed) limits, one tiered view per tier, the cursor slot
table (index 0 permanently reserved and empty) and the free list of destroyed
slot indices. -/
structure db_view_state where
  receiver : Nat
  limits : kv_database_config
  kv_ram : kv_context_rocksdb
  kv_disk : kv_context_rocksdb
  kv_iterators : List (Option kv_iterator_rocksdb)
  kv_destroyed_iterators : List Nat
deriving DecidableEq

/-- Select the tier's context, as `kv_get_db` returns a reference to
`state.kv_ram` or `state.kv_disk`. -/
def getDb (s : db_view_state) : Tier → kv_context_rocksdb
  | .ram => s.kv_ram
  | .disk => s.kv_disk

/-- Write back through the reference `kv_get_db` returned. -/
def setDb (s : db_view_state) : Tier → kv_context_rocksdb → db_view_state
  | .ram, c => { s with kv_ram := c }
  | .disk, c => { s with kv_disk := c }

/-- `kv_get_db`: resolves the 64-bit database selector to a tier, throwing
`Bad key-value database ID` for any other value. -/
def tierOf (db : Nat) : Except String Tier :=
  if db = kvram_id then .ok .ram
  else if db = kvdisk_id then .ok .disk
  else .error "Bad key-value database ID"

/-- The `db_view_state` constructor: fresh contexts over the given backing
stores, slot table `{nullptr}` of size 1, empty free list. -/
def mk_db_view_state (receiver : Nat) (ramStore diskStore : Store) : db_view_state :=
  { receiver := receiver
    limits := defaultLimits
    kv_ram := { database_id := kvram_id, receiver := receiver, limits := defaultLimits,
                store := ramStore }
    kv_disk := { database_id := kvdisk_id, receiver := receiver, limits := defaultLimits,
                 store := diskStore }
    kv_iterators := [none]
    kv_destroyed_iterators := [] }

/-- Number of live cursors belonging to tier `t` (occupied slots whose cursor
holds that tier's counter). -/
def countTier (s : db_view_state) (t : Tier) : Nat :=
  s.kv_iterators.countP (fun o =>
    match o with
    | some it => decide (it.db = t)
    | none => false)

/-- Number of live cursors in the whole session (occupied slots). -/
def sessionLiveCursors (s : db_view_state) : Nat :=
  s.kv_iterators.countP (fun o => o.isSome)

/-- `db_view_state::reset`: requires every non-reserved slot destroyed
(`kv_iterators.size() == kv_destroyed_iterators.size() + 1`), then truncates
the slot table to the reserved slot and clears the free list. -/
def db_view_state.reset (s : db_view_state) : Except String db_view_state :=
  if s.kv_iterators.length = s.kv_destroyed_iterators.length + 1 then
    .ok { s with kv_iterators := s.kv_iterators.take 1, kv_destroyed_iterators := [] }
  else .error "iterators are still alive"

namespace db_callbacks

/-- Gateway `kv_erase` (with `kv_environment`'s no-op bounds check): resolve
the tier, run the view's `kv_erase`, write the context back. -/
def kv_erase (s : db_view_state) (db contract : Nat) (key : Bytes) :
    Except String db_view_state :=
  match tierOf db with
  | .error e => .error e
  | .ok t =>
    match (getDb s t).kv_erase contract key with
    | .error e => .error e
    | .ok ctx => .ok (setDb s t ctx)

/-- Gateway `kv_set`. -/
def kv_set (s : db_view_state) (db contract : Nat) (key value : Bytes) :
    Except String db_view_state :=
  match tierOf db with
  | .error e => .error e
  | .ok t =>
    match (getDb s t).kv_set contract key value with
    | .error e => .error e
    | .ok ctx => .ok (setDb s t ctx)

/-- Gateway `kv_get`: returns (present flag, value length, updated session). -/
def kv_get (s : db_view_state) (db contract : Nat) (key : Bytes) :
    Except String (Bool × Nat × db_view_state) :=
  match tierOf db with
  | .error e => .error e
  | .ok t =>
    match (getDb s t).kv_get contract key with
    | (found, len, ctx) => .ok (found, len, setDb s t ctx)

/-- Gateway `kv_get_data`: returns (bytes copied, total length); the session
state is not mutated. -/
def kv_get_data (s : db_view_state) (db : Nat) (offset cap : Nat) :
    Except String (Bytes × Nat) :=
  match tierOf db with
  | .error e => .error e
  | .ok t => .ok ((getDb s t).kv_get_data offset cap)

/-- Gateway `kv_it_create`: picks the token — the back of the free list if it
is non-empty (popping it), otherwise appends a new slot at the end of the
slot table (after the `<= 0xFFFFFFFF` sanity check) — then constructs the
cursor through the selected view and stores it in the chosen slot.

The slot-table mutation (the pop or the append) executes *before*
`kdb.kv_it_create` can throw the budget error, so the result is returned
together with the post-call session state: on that error the returned state
keeps the popped free list or the appended (still empty) slot, exactly as the
C++ leaves the session when the exception propagates. The tier-selector check
and the `<= 0xFFFFFFFF` sanity check throw before any mutation. -/
def kv_it_create (s : db_view_state) (db contract : Nat) (pfx : Bytes) :
    Except String Nat × db_view_state :=
  match tierOf db with
  | .error e => (.error e, s)
  | .ok t =>
    match s.kv_destroyed_iterators.getLast? with
    | some i =>
      let s1 : db_view_state :=
        { s with kv_destroyed_iterators := s.kv_destroyed_iterators.dropLast }
      match (getDb s1 t).kv_it_create t contract pfx with
      | .error e => (.error e, s1)
      | .ok r =>
        (.ok i, setDb { s1 with kv_iterators := s1.kv_iterators.set i (some r.1) } t r.2)
    | none =>
      if s.kv_iterators.length ≤ 4294967295 then
        let s1 : db_view_state := { s with kv_iterators := s.kv_iterators ++ [none] }
        match (getDb s1 t).kv_it_create t contract pfx with
        | .error e => (.error e, s1)
        | .ok r =>
          (.ok s.kv_iterators.length,
           setDb { s1 with kv_iterators := s1.kv_iterators.set s.kv_iterators.length (some r.1) }
             t r.2)
      else (.error "Too many iterators", s)

/-- `kv_check_iterator`: a token is valid when it indexes an occupied slot
(out-of-range `getD` yields `none`, covering `itr < kv_iterators.size()`). -/
def kv_check_iterator (s : db_view_state) (itr : Nat) : Except String Unit :=
  if (s.kv_iterators.getD itr none).isSome then .ok ()
  else .error "Bad key-value iterator"

/-- Gateway `kv_it_destroy`: token check, push the slot on the free list,
drop the cursor (its destructor decrements the owning context's counter). -/
def kv_it_destroy (s : db_view_state) (itr : Nat) : Except String db_view_state :=
  match s.kv_iterators.getD itr none with
  | some it =>
    let s1 : db_view_state :=
      { s with kv_destroyed_iterators := s.kv_destroyed_iterators ++ [itr],
               kv_iterators := s.kv_iterators.set itr none }
    let ctx := getDb s1 it.db
    .ok (setDb s1 it.db { ctx with num_iterators := ctx.num_iterators - 1 })
  | none => .error "Bad key-value iterator"

end db_callbacks

/-- The session-state invariant maintained by every reachable `db_view_state`:
slot 0 reserved and empty, the free list holds exactly the non-reserved empty
slots (each once), each context's live-cursor counter counts its tier's
occupied slots and stays within the budget, the contexts share the session's
default-constructed limits, and the slot table never outgrows the 32-bit
sanity bound. -/
structure WF (s : db_view_state) : Prop where
  lenPos : 1 ≤ s.kv_iterators.length
  lenBound : s.kv_iterators.length ≤ 4294967295
  slot0 : s.kv_iterators.getD 0 none = none
  destroyedNodup : s.kv_destroyed_iterators.Nodup
  destroyedRange : ∀ i ∈ s.kv_destroyed_iterators, 1 ≤ i ∧ i < s.kv_iterators.length
  destroyedEmpty : ∀ i ∈ s.kv_destroyed_iterators, s.kv_iterators.getD i none = none
  emptyInDestroyed : ∀ i, i < s.kv_iterators.length → 1 ≤ i →
    s.kv_iterators.getD i none = none → i ∈ s.kv_destroyed_iterators
  ramCount : s.kv_ram.num_iterators = countTier s Tier.ram
  diskCount : s.kv_disk.num_iterators = countTier s Tier.disk
  ramLe : s.kv_ram.num_iterators ≤ s.limits.max_iterators
  diskLe : s.kv_disk.num_iterators ≤ s.limits.max_iterators
  ramLimits : s.kv_ram.limits = s.limits
  diskLimits : s.kv_disk.limits = s.limits
  limitsDefault : s.limits = defaultLimits

/-! ### Concrete states used by witnesses and counterexamples -/

/-- A view whose transient read buffer holds four bytes. -/
def mkCtxC6 : kv_context_rocksdb :=
  { database_id := kvram_id, receiver := 11, limits := defaultLimits,
    store := [((11, [1, 2, 3, 4]), [5, 6, 7, 8])], num_iterators := 0,
    temp_data_buffer := some [5, 6, 7, 8] }

/-- A live cursor positioned on a 4-byte key with a 4-byte value. -/
def mkItC6 : kv_iterator_rocksdb :=
  { db := Tier.ram, contract := 11, pfx := [],
    entries := [([1, 2, 3, 4], [9, 10, 11, 12])], pos := 0, erased := false }

/-- A session whose two views both hold a non-empty transient read buffer. -/
def c8State : db_view_state :=
  { receiver := 11, limits := defaultLimits,
    kv_ram := { database_id := kvram_id, receiver := 11, limits := defaultLimits,
                store := [], num_iterators := 0, temp_data_buffer := some [9] },
    kv_disk := { database_id := kvdisk_id, receiver := 11, limits := defaultLimits,
                 store := [], num_iterators := 0, temp_data_buffer := some [8] },
    kv_iterators := [none]
    kv_destroyed_iterators := [] }

/-- The session after `kv_set(kvram, 11, [3], [4])` on `c8State`. -/
def c8After : db_view_state :=
  setDb c8State Tier.ram
    { getDb c8State Tier.ram with
      temp_data_buffer := none,
      store := storeSet (getDb c8State Tier.ram).store 11 [3] [4] }

/-- A cursor in the erased state (its key was deleted after positioning). -/
def erasedItC5 : kv_iterator_rocksdb :=
  { db := Tier.ram, contract := 5, pfx := [],
    entries := [([1], [7]), ([3], [8])], pos := 0, erased := true }

/-- A healthy cursor over the same view and contract as `erasedItC5`. -/
def rhsItC5 : kv_iterator_rocksdb :=
  { db := Tier.ram, contract := 5, pfx := [],
    entries := [([1], [7]), ([3], [8])], pos := 1, erased := false }

/-- A session in which tokens 1 and 2 were created and then destroyed in that
order, so the free list holds [1, 2] (2 was pushed last). -/
def c3State : db_view_state :=
  { mk_db_view_state 11 [] [] with
    kv_iterators := [none, none, none],
    kv_destroyed_iterators := [1, 2] }

/-- The cursor a fresh creation over an empty store produces. -/
def itInitMk : kv_iterator_rocksdb :=
  { db := Tier.ram, contract := 11, pfx := [], entries := [], pos := 0, erased := false }

/-- The session after the first `kv_it_create` (tier ram, contract 11, empty
sub-range prefix) on a fresh `mk_db_view_state 11 [] []`. -/
def mkAfterCreate : db_view_state :=
  { receiver := 11, limits := defaultLimits,
    kv_ram := { database_id := kvram_id, receiver := 11, limits := defaultLimits,
                store := [], num_iterators := 1, temp_data_buffer := none },
    kv_disk := { database_id := kvdisk_id, receiver := 11, limits := defaultLimits,
                 store := [], num_iterators := 0, temp_data_buffer := none },
    kv_iterators := [none, some itInitMk],
    kv_destroyed_iterators := [] }

/-- A session holding 1024 live ram-tier cursors (the iterator budget of the
ram view is exhausted while the disk view has none). Reachable by creating
1024 cursors on the ram tier. -/
def c4State : db_view_state :=
  { receiver := 11, limits := defaultLimits,
    kv_ram := { database_id := kvram_id, receiver := 11, limits := defaultLimits,
                store := [], num_iterators := 1024, temp_data_buffer := none },
    kv_disk := { database_id := kvdisk_id, receiver := 11, limits := defaultLimits,
                 store := [], num_iterators := 0, temp_data_buffer := none },
    kv_iterators := none :: List.replicate 1024 (some itInitMk),
    kv_destroyed_iterators := [] }

/-- A session holding exactly one live ram-tier cursor in slot 1. -/
def c4WitState : db_view_state :=
  { receiver := 11, limits := defaultLimits,
    kv_ram := { database_id := kvram_id, receiver := 11, limits := defaultLimits,
                store := [], num_iterators := 1, temp_data_buffer := none },
    kv_disk := { database_id := kvdisk_id, receiver := 11, limits := defaultLimits,
                 store := [], num_iterators := 0, temp_data_buffer := none },
    kv_iterators := [none, some itInitMk],
    kv_destroyed_iterators := [] }

/-- The terminal session of the spec's property-5 sequence run one step too
far: 1024 ram-tier cursors created (tokens 1..1024), a 1025th ram creation
attempted — it throws the budget error *after* appending empty slot 1025 —
and then all 1024 cursors destroyed (free list [1, ..., 1024]). Slot 1025 is
empty but on no free list, so the slot table (1026 slots) is one longer than
the free list plus the reserved slot forever. -/
def leakState : db_view_state :=
  { receiver := 11, limits := defaultLimits,
    kv_ram := { database_id := kvram_id, receiver := 11, limits := defaultLimits,
                store := [], num_iterators := 0, temp_data_buffer := none },
    kv_disk := { database_id := kvdisk_id, receiver := 11, limits := defaultLimits,
                 store := [], num_iterators := 0, temp_data_buffer := none },
    kv_iterators := List.replicate 1026 none,
    kv_destroyed_iterators := (List.range 1024).map (fun n => n + 1) }

/-! ### Helper lemmas about the session-state plumbing -/

theorem getDb_setDb (s : db_view_state) (t : Tier) (c : kv_context_rocksdb) :
    getDb (setDb s t c) t = c := by
  cases t <;> rfl

theorem getDb_setDb_ne (s : db_view_state) {t t2 : Tier} (h : t2 ≠ t) (c : kv_context_rocksdb) :
    getDb (setDb s t c) t2 = getDb s t2 := by
  cases t <;> cases t2 <;> first | rfl | exact absurd rfl h

theorem setDb_setDb (s : db_view_state) (t : Tier) (c1 c2 : kv_context_rocksdb) :
    setDb (setDb s t c1) t c2 = setDb s t c2 := by
  cases t <;> rfl

theorem storeGet_storeSet_self (s : Store) (c : Nat) (k v : Bytes) :
    storeGet (storeSet s c k v) c k = some v := by
  simp [storeGet, storeSet, List.find?]

theorem window_total_oob (b : Bytes) (offset cap : Nat) (h : b.length ≤ offset) :
    window b offset cap = [] := by
  simp [window, Nat.not_lt.mpr h]

theorem window_length_eq (b : Bytes) (offset cap : Nat) (h : offset < b.length) :
    (window b offset cap).length = min cap (b.length - offset) := by
  simp [window, h]

theorem window_getElem (b : Bytes) (offset cap j : Nat)
    (hj : j < min cap (b.length - offset)) :
    (window b offset cap)[j]? = b[offset + j]? := by
  have ho : offset < b.length := by omega
  simp [window, ho, List.getElem?_take, hj, List.getElem?_drop]

theorem window_all (b : Bytes) : window b 0 b.length = b := by
  rcases b with _ | ⟨x, xs⟩ <;> simp [window]

theorem kv_set_ok (ctx : kv_context_rocksdb) (c : Nat) (k v : Bytes)
    (hc : c = ctx.receiver) (hk : k.length ≤ ctx.limits.max_key_size)
    (hv : v.length ≤ ctx.limits.max_value_size) :
    ctx.kv_set c k v =
      .ok { ctx with temp_data_buffer := none, store := storeSet ctx.store c k v } := by
  simp only [kv_context_rocksdb.kv_set]
  rw [if_neg (by simp [hc]), if_neg (by omega), if_neg (by omega)]

/-! ### C1: set/get round-trip -/

/-- C1: for every tier, after a `kv_set(t, c, k, v)` by the receiver with `k`
and `v` within the limits, `kv_get(t, c, k)` reports present with the length
of `v`, the view's transient read buffer holds exactly `v`, and `kv_get_data`
retrieves `v`. -/
theorem C1_set_get_roundtrip (s : db_view_state) (db : Nat) (t : Tier) (c : Nat)
    (k v : Bytes) (ht : tierOf db = .ok t) (hc : c = (getDb s t).receiver)
    (hk : k.length ≤ (getDb s t).limits.max_key_size)
    (hv : v.length ≤ (getDb s t).limits.max_value_size) :
    ∃ s1, db_callbacks.kv_set s db c k v = .ok s1 ∧
      ∃ s2, db_callbacks.kv_get s1 db c k = .ok (true, v.length, s2) ∧
        (getDb s2 t).temp_data_buffer = some v ∧
        db_callbacks.kv_get_data s2 db 0 v.length = .ok (v, v.length) := by
  have hset := kv_set_ok (getDb s t) c k v hc hk hv
  refine ⟨setDb s t { getDb s t with
      temp_data_buffer := none,
      store := storeSet (getDb s t).store c k v }, ?_, ?_⟩
  · simp only [db_callbacks.kv_set, ht, hset]
  · refine ⟨setDb s t { getDb s t with
      temp_data_buffer := some v,
      store := storeSet (getDb s t).store c k v }, ?_, ?_, ?_⟩
    · simp only [db_callbacks.kv_get, ht, getDb_setDb, kv_context_rocksdb.kv_get,
        storeGet_storeSet_self, setDb_setDb]
    · simp [getDb_setDb]
    · simp only [db_callbacks.kv_get_data, ht, getDb_setDb, kv_context_rocksdb.kv_get_data,
        Option.getD_some, window_all]

/-- C1 witness: concrete round-trip through tier `eosio.kvram`. -/
theorem C1_set_get_roundtrip_witness :
    ∃ s1, db_callbacks.kv_set (mk_db_view_state 11 [] []) kvram_id 11 [1, 2] [3, 4, 5] = .ok s1 ∧
      ∃ s2, db_callbacks.kv_get s1 kvram_id 11 [1, 2] = .ok (true, 3, s2) ∧
        (getDb s2 Tier.ram).temp_data_buffer = some [3, 4, 5] ∧
        db_callbacks.kv_get_data s2 kvram_id 0 3 = .ok ([3, 4, 5], 3) :=
  C1_set_get_roundtrip (mk_db_view_state 11 [] []) kvram_id Tier.ram 11 [1, 2] [3, 4, 5]
    (by simp [tierOf]) rfl (by decide) (by decide)

/-! ### C2: writes by a non-receiver are denied and mutate nothing -/

/-- C2: for every contract different from the view's receiver, `kv_set` and
`kv_erase` fail with the access-denied error; since the exception propagates
before any mutation (the `Except.error` result carries no new state), the
backing store and the transient read buffer are untouched — no `.ok` state is
ever produced. -/
theorem C2_write_access_denied (s : db_view_state) (db : Nat) (t : Tier) (c : Nat)
    (k v : Bytes) (ht : tierOf db = .ok t) (hc : ¬ c = (getDb s t).receiver) :
    db_callbacks.kv_set s db c k v = .error "Can not write to this key" ∧
    db_callbacks.kv_erase s db c k = .error "Can not write to this key" ∧
    (∀ s2, ¬ db_callbacks.kv_set s db c k v = .ok s2) ∧
    (∀ s2, ¬ db_callbacks.kv_erase s db c k = .ok s2) := by
  have hset : db_callbacks.kv_set s db c k v = .error "Can not write to this key" := by
    simp [db_callbacks.kv_set, ht, kv_context_rocksdb.kv_set, hc]
  have herase : db_callbacks.kv_erase s db c k = .error "Can not write to this key" := by
    simp [db_callbacks.kv_erase, ht, kv_context_rocksdb.kv_erase, hc]
  exact ⟨hset, herase, fun s2 h => by simp [hset] at h, fun s2 h => by simp [herase] at h⟩

/-- C2 witness: contract 7 writing into receiver 11's view. -/
theorem C2_write_access_denied_witness :
    db_callbacks.kv_set (mk_db_view_state 11 [] []) kvdisk_id 7 [1] [2] =
      .error "Can not write to this key" ∧
    db_callbacks.kv_erase (mk_db_view_state 11 [] []) kvdisk_id 7 [1] =
      .error "Can not write to this key" ∧
    (∀ s2, ¬ db_callbacks.kv_set (mk_db_view_state 11 [] []) kvdisk_id 7 [1] [2] = .ok s2) ∧
    (∀ s2, ¬ db_callbacks.kv_erase (mk_db_view_state 11 [] []) kvdisk_id 7 [1] = .ok s2) :=
  C2_write_access_denied (mk_db_view_state 11 [] []) kvdisk_id Tier.disk 7 [1] [2]
    (by simp [tierOf, kvram_id, kvdisk_id, name_value]) (by decide)

/-! ### C7: size-limit boundaries -/

/-- C7: a receiver `kv_set` with key length exactly `max_key_size` and value
length exactly `max_value_size` succeeds; a key one byte longer fails with
the key-size error and a value one byte longer fails with the value-size
error; a failing call produces no `.ok` state, so the store is unchanged. -/
theorem C7_size_limit_boundary (ctx : kv_context_rocksdb) (c : Nat) (k v k2 v2 : Bytes)
    (hc : c = ctx.receiver)
    (hk : k.length = ctx.limits.max_key_size) (hv : v.length = ctx.limits.max_value_size)
    (hk2 : k2.length = ctx.limits.max_key_size + 1)
    (hv2 : v2.length = ctx.limits.max_value_size + 1) :
    (∃ ctx2, ctx.kv_set c k v = .ok ctx2) ∧
    ctx.kv_set c k2 v = .error "Key too large" ∧
    ctx.kv_set c k v2 = .error "Value too large" ∧
    (∀ ctx2, ¬ ctx.kv_set c k2 v = .ok ctx2) ∧
    (∀ ctx2, ¬ ctx.kv_set c k v2 = .ok ctx2) := by
  have hok : ∃ ctx2, ctx.kv_set c k v = .ok ctx2 :=
    ⟨_, kv_set_ok ctx c k v hc (le_of_eq hk) (le_of_eq hv)⟩
  have hkey : ctx.kv_set c k2 v = .error "Key too large" := by
    simp only [kv_context_rocksdb.kv_set]
    rw [if_neg (by simp [hc]), if_pos (by omega)]
  have hval : ctx.kv_set c k v2 = .error "Value too large" := by
    simp only [kv_context_rocksdb.kv_set]
    rw [if_neg (by simp [hc]), if_neg (by omega), if_pos (by omega)]
  exact ⟨hok, hkey, hval, fun ctx2 h => by simp [hkey] at h, fun ctx2 h => by simp [hval] at h⟩

/-- C7 witness: the default limits (1024-byte keys, 262144-byte values) at
their exact boundaries. -/
theorem C7_size_limit_boundary_witness :
    (∃ ctx2, (getDb (mk_db_view_state 11 [] []) Tier.ram).kv_set 11
      (List.replicate 1024 0) (List.replicate 262144 0) = .ok ctx2) ∧
    (getDb (mk_db_view_state 11 [] []) Tier.ram).kv_set 11
      (List.replicate 1025 0) (List.replicate 262144 0) = .error "Key too large" ∧
    (getDb (mk_db_view_state 11 [] []) Tier.ram).kv_set 11
      (List.replicate 1024 0) (List.replicate 262145 0) = .error "Value too large" ∧
    (∀ ctx2, ¬ (getDb (mk_db_view_state 11 [] []) Tier.ram).kv_set 11
      (List.replicate 1025 0) (List.replicate 262144 0) = .ok ctx2) ∧
    (∀ ctx2, ¬ (getDb (mk_db_view_state 11 [] []) Tier.ram).kv_set 11
      (List.replicate 1024 0) (List.replicate 262145 0) = .ok ctx2) :=
  C7_size_limit_boundary (getDb (mk_db_view_state 11 [] []) Tier.ram) 11
    (List.replicate 1024 0) (List.replicate 262144 0)
    (List.replicate 1025 0) (List.replicate 262145 0)
    rfl (by rw [List.length_replicate]; simp [mk_db_view_state, getDb, defaultLimits])
    (by rw [List.length_replicate]; simp [mk_db_view_state, getDb, defaultLimits])
    (by rw [List.length_replicate]; simp [mk_db_view_state, getDb, defaultLimits])
    (by rw [List.length_replicate]; simp [mk_db_view_state, getDb, defaultLimits])

/-! ### C10: reads are not ownership-checked -/

/-- C10: `kv_get` performs no ownership check — for every contract, including
one different from the view's receiver, it succeeds — while `kv_set` for a
non-receiver contract fails with the access-denied error. -/
theorem C10_get_no_ownership_check (s : db_view_state) (db : Nat) (t : Tier)
    (c : Nat) (k v : Bytes) (ht : tierOf db = .ok t) :
    (∃ r, db_callbacks.kv_get s db c k = .ok r) ∧
    (¬ c = (getDb s t).receiver →
      db_callbacks.kv_set s db c k v = .error "Can not write to this key") := by
  constructor
  · rcases hkv : (getDb s t).kv_get c k with ⟨found, len, ctx⟩
    exact ⟨(found, len, setDb s t ctx), by simp only [db_callbacks.kv_get, ht, hkv]⟩
  · intro hc
    simp [db_callbacks.kv_set, ht, kv_context_rocksdb.kv_set, hc]

/-- C10 witness: contract 7 reading from receiver 11's view succeeds while
its write is denied. -/
theorem C10_get_no_ownership_check_witness :
    (∃ r, db_callbacks.kv_get (mk_db_view_state 11 [] []) kvram_id 7 [1] = .ok r) ∧
    (¬ (7 : Nat) = (getDb (mk_db_view_state 11 [] []) Tier.ram).receiver →
      db_callbacks.kv_set (mk_db_view_state 11 [] []) kvram_id 7 [1] [2] =
        .error "Can not write to this key") :=
  C10_get_no_ownership_check (mk_db_view_state 11 [] []) kvram_id Tier.ram 7 [1] [2]
    (by simp [tierOf])

/-! ### C6: read-window semantics of kv_get_data / kv_it_key / kv_it_value -/

/-- C6: each read-window operation reports the true total length `L` of the
current buffer/key/value regardless of how much it copied; with `offset ≥ L`
it copies nothing; otherwise it copies exactly `min(capacity, L - offset)`
bytes taken from the source starting at `offset`. -/
theorem C6_read_windows (ctx : kv_context_rocksdb) (buf : Bytes)
    (it : kv_iterator_rocksdb) (kv : Bytes × Bytes) (offset cap : Nat)
    (hbuf : ctx.temp_data_buffer = some buf)
    (he : it.erased = false) (hkv : it.get_kv = some kv) :
    ((ctx.kv_get_data offset cap).2 = buf.length ∧
     (buf.length ≤ offset → (ctx.kv_get_data offset cap).1 = []) ∧
     (offset < buf.length →
       (ctx.kv_get_data offset cap).1.length = min cap (buf.length - offset) ∧
       ∀ j < min cap (buf.length - offset),
         (ctx.kv_get_data offset cap).1[j]? = buf[offset + j]?)) ∧
    (∃ out, it.kv_it_key offset cap = .ok (.iterator_ok, out, kv.1.length) ∧
      (kv.1.length ≤ offset → out = []) ∧
      (offset < kv.1.length →
        out.length = min cap (kv.1.length - offset) ∧
        ∀ j < min cap (kv.1.length - offset), out[j]? = kv.1[offset + j]?)) ∧
    (∃ out, it.kv_it_value offset cap = .ok (.iterator_ok, out, kv.2.length) ∧
      (kv.2.length ≤ offset → out = []) ∧
      (offset < kv.2.length →
        out.length = min cap (kv.2.length - offset) ∧
        ∀ j < min cap (kv.2.length - offset), out[j]? = kv.2[offset + j]?)) := by
  refine ⟨⟨?_, ?_, ?_⟩, ⟨window kv.1 offset cap, ?_, ?_, ?_⟩,
    ⟨window kv.2 offset cap, ?_, ?_, ?_⟩⟩
  · simp [kv_context_rocksdb.kv_get_data, hbuf]
  · intro h
    simp [kv_context_rocksdb.kv_get_data, hbuf, window_total_oob _ _ _ h]
  · intro h
    exact ⟨by simp [kv_context_rocksdb.kv_get_data, hbuf, window_length_eq _ _ _ h],
      fun j hj => by simp [kv_context_rocksdb.kv_get_data, hbuf, window_getElem _ _ _ _ hj]⟩
  · simp [kv_iterator_rocksdb.kv_it_key, he, hkv]
  · exact fun h => window_total_oob _ _ _ h
  · exact fun h => ⟨window_length_eq _ _ _ h, fun j hj => window_getElem _ _ _ _ hj⟩
  · simp [kv_iterator_rocksdb.kv_it_value, he, hkv]
  · exact fun h => window_total_oob _ _ _ h
  · exact fun h => ⟨window_length_eq _ _ _ h, fun j hj => window_getElem _ _ _ _ hj⟩

/-- C6 witness: buffer/key/value of length 4, offset 1 and capacity 2. -/
theorem C6_read_windows_witness :
    (((mkCtxC6.kv_get_data 1 2).2 = 4 ∧
      ((4 : Nat) ≤ 1 → (mkCtxC6.kv_get_data 1 2).1 = []) ∧
      ((1 : Nat) < 4 →
        (mkCtxC6.kv_get_data 1 2).1.length = min 2 (4 - 1) ∧
        ∀ j < min 2 (4 - 1), (mkCtxC6.kv_get_data 1 2).1[j]? = [5, 6, 7, 8][1 + j]?)) ∧
     (∃ out, mkItC6.kv_it_key 1 2 = .ok (.iterator_ok, out, 4) ∧
       ((4 : Nat) ≤ 1 → out = []) ∧
       ((1 : Nat) < 4 →
         out.length = min 2 (4 - 1) ∧
         ∀ j < min 2 (4 - 1), out[j]? = [1, 2, 3, 4][1 + j]?)) ∧
     (∃ out, mkItC6.kv_it_value 1 2 = .ok (.iterator_ok, out, 4) ∧
       ((4 : Nat) ≤ 1 → out = []) ∧
       ((1 : Nat) < 4 →
         out.length = min 2 (4 - 1) ∧
         ∀ j < min 2 (4 - 1), out[j]? = [9, 10, 11, 12][1 + j]?))) :=
  C6_read_windows mkCtxC6 [5, 6, 7, 8] mkItC6 ([1, 2, 3, 4], [9, 10, 11, 12]) 1 2
    rfl rfl (by decide)

/-! ### C8: writes invalidate only this view's transient read buffer -/

theorem kv_set_ok_shape {ctx ctx2 : kv_context_rocksdb} {c : Nat} {k v : Bytes}
    (h : ctx.kv_set c k v = .ok ctx2) :
    ctx2 = { ctx with temp_data_buffer := none, store := storeSet ctx.store c k v } := by
  simp only [kv_context_rocksdb.kv_set] at h
  split at h
  · cases h
  · split at h
    · cases h
    · split at h
      · cases h
      · cases h
        rfl

theorem kv_erase_ok_shape {ctx ctx2 : kv_context_rocksdb} {c : Nat} {k : Bytes}
    (h : ctx.kv_erase c k = .ok ctx2) :
    ctx2 = { ctx with temp_data_buffer := none, store := storeErase ctx.store c k } := by
  simp only [kv_context_rocksdb.kv_erase] at h
  split at h
  · cases h
  · cases h
    rfl

theorem kv_get_data_of_none {ctx : kv_context_rocksdb} (h : ctx.temp_data_buffer = none)
    (offset cap : Nat) : ctx.kv_get_data offset cap = ([], 0) := by
  simp [kv_context_rocksdb.kv_get_data, h, window]

/-- C8: a successful `kv_set` or `kv_erase` on a tiered view clears that
view's transient read buffer — a subsequent `kv_get_data` on the same view
copies nothing and reports total length 0 — and leaves the other tier's view
(in particular its buffer) unchanged. -/
theorem C8_write_invalidates_buffer (s : db_view_state) (db c : Nat) (k v : Bytes)
    (t : Tier) (ht : tierOf db = .ok t) :
    (∀ s2, db_callbacks.kv_set s db c k v = .ok s2 →
      (getDb s2 t).temp_data_buffer = none ∧
      (∀ t2, t2 ≠ t → getDb s2 t2 = getDb s t2) ∧
      ∀ offset cap, (getDb s2 t).kv_get_data offset cap = ([], 0)) ∧
    (∀ s2, db_callbacks.kv_erase s db c k = .ok s2 →
      (getDb s2 t).temp_data_buffer = none ∧
      (∀ t2, t2 ≠ t → getDb s2 t2 = getDb s t2) ∧
      ∀ offset cap, (getDb s2 t).kv_get_data offset cap = ([], 0)) := by
  constructor
  · intro s2 h
    simp only [db_callbacks.kv_set, ht] at h
    cases hctx : (getDb s t).kv_set c k v with
    | error e => rw [hctx] at h; cases h
    | ok ctx2 =>
      rw [hctx] at h
      cases h
      have hshape := kv_set_ok_shape hctx
      subst hshape
      refine ⟨by rw [getDb_setDb], fun t2 h2 => getDb_setDb_ne s h2 _, fun offset cap => ?_⟩
      rw [getDb_setDb]
      exact kv_get_data_of_none rfl offset cap
  · intro s2 h
    simp only [db_callbacks.kv_erase, ht] at h
    cases hctx : (getDb s t).kv_erase c k with
    | error e => rw [hctx] at h; cases h
    | ok ctx2 =>
      rw [hctx] at h
      cases h
      have hshape := kv_erase_ok_shape hctx
      subst hshape
      refine ⟨by rw [getDb_setDb], fun t2 h2 => getDb_setDb_ne s h2 _, fun offset cap => ?_⟩
      rw [getDb_setDb]
      exact kv_get_data_of_none rfl offset cap

/-- C8 witness: a concrete successful write on the ram view of a session
whose two buffers are both non-empty. -/
theorem C8_write_invalidates_buffer_witness :
    (getDb c8After Tier.ram).temp_data_buffer = none ∧
    (∀ t2, t2 ≠ Tier.ram → getDb c8After t2 = getDb c8State t2) ∧
    (∀ offset cap, (getDb c8After Tier.ram).kv_get_data offset cap = ([], 0)) :=
  (C8_write_invalidates_buffer c8State kvram_id 11 [3] [4] Tier.ram
    (by simp [tierOf])).1 c8After rfl

/-! ### C5: operations on an erased cursor -/

theorem kv_it_status_erased_iff (it : kv_iterator_rocksdb) :
    it.kv_it_status = .iterator_erased ↔
      (it.erased = true ∧ it.pos < it.entries.length) := by
  unfold kv_iterator_rocksdb.kv_it_status kv_iterator_rocksdb.is_end
  by_cases h1 : it.entries.length ≤ it.pos
  · simp [h1]
  · by_cases h2 : it.erased = true <;> simp [h1, h2]
    all_goals omega

theorem kv_it_status_of_not_erased (it : kv_iterator_rocksdb) (h : it.erased = false) :
    it.kv_it_status = if it.entries.length ≤ it.pos then .iterator_end else .iterator_ok := by
  unfold kv_iterator_rocksdb.kv_it_status kv_iterator_rocksdb.is_end
  by_cases h1 : it.entries.length ≤ it.pos <;> simp [h1, h]

/-- C5: on a cursor whose status is Erased, advance, retreat, comparison with
a cursor of the same view and contract, key comparison and the key/value
reads all fail with the erased-element error; `kv_it_move_to_end` always
succeeds and returns End; `kv_it_lower_bound` always succeeds, clears the
erased state, and repositions to the first in-range key not below the
argument — every key before the new position is below the argument, the key
at the new position (when one exists) is not, and the returned status is End
exactly when no such key exists, Ok otherwise. -/
theorem C5_erased_cursor_ops (it rhs : kv_iterator_rocksdb) (key : Bytes) (offset cap : Nat)
    (hst : it.kv_it_status = .iterator_erased)
    (hdb : rhs.db = it.db) (hco : rhs.contract = it.contract) :
    it.kv_it_next = .error "Iterator to erased element" ∧
    it.kv_it_prev = .error "Iterator to erased element" ∧
    it.kv_it_compare rhs = .error "Iterator to erased element" ∧
    it.kv_it_key_compare key = .error "Iterator to erased element" ∧
    it.kv_it_key offset cap = .error "Iterator to erased element" ∧
    it.kv_it_value offset cap = .error "Iterator to erased element" ∧
    it.kv_it_move_to_end.2 = .iterator_end ∧
    it.kv_it_move_to_end.1.kv_it_status = .iterator_end ∧
    (it.kv_it_lower_bound key).1.erased = false ∧
    (it.kv_it_lower_bound key).1.entries = it.entries ∧
    (∀ j, j < (it.kv_it_lower_bound key).1.pos →
      ∃ e, it.entries[j]? = some e ∧ byteLtB e.1 key = true) ∧
    (∀ e, it.entries[(it.kv_it_lower_bound key).1.pos]? = some e →
      byteLtB e.1 key = false) ∧
    ((it.kv_it_lower_bound key).2 = .iterator_end ↔
      it.entries.length ≤ (it.kv_it_lower_bound key).1.pos) ∧
    ((it.kv_it_lower_bound key).2 = .iterator_ok ↔
      (it.kv_it_lower_bound key).1.pos < it.entries.length) := by
  obtain ⟨he, _⟩ := (kv_it_status_erased_iff it).mp hst
  refine ⟨by simp [kv_iterator_rocksdb.kv_it_next, he],
    by simp [kv_iterator_rocksdb.kv_it_prev, he],
    by simp [kv_iterator_rocksdb.kv_it_compare, hdb, hco, he],
    by simp [kv_iterator_rocksdb.kv_it_key_compare, he],
    by simp [kv_iterator_rocksdb.kv_it_key, he],
    by simp [kv_iterator_rocksdb.kv_it_value, he],
    rfl,
    by simp [kv_iterator_rocksdb.kv_it_move_to_end, kv_iterator_rocksdb.kv_it_status,
      kv_iterator_rocksdb.is_end],
    rfl, rfl, ?_, ?_, ?_, ?_⟩
  · intro j hj
    simp only [kv_iterator_rocksdb.kv_it_lower_bound] at hj
    have hjlen : j < it.entries.length :=
      lt_of_lt_of_le hj (List.findIdx_le_length _)
    refine ⟨it.entries[j], by simp [hjlen], ?_⟩
    have := List.not_of_lt_findIdx hj
    simpa using this
  · intro e hsome
    simp only [kv_iterator_rocksdb.kv_it_lower_bound] at hsome ⊢
    obtain ⟨hlt, hval⟩ := List.getElem?_eq_some_iff.mp hsome
    have := @List.findIdx_getElem _ (fun e => ! byteLtB e.1 key) it.entries hlt
    rw [hval] at this
    simpa using this
  · rw [show (it.kv_it_lower_bound key).2 = (it.kv_it_lower_bound key).1.kv_it_status from rfl,
      kv_it_status_of_not_erased _ (by simp [kv_iterator_rocksdb.kv_it_lower_bound])]
    simp only [kv_iterator_rocksdb.kv_it_lower_bound]
    split
    · next h => exact ⟨fun _ => h, fun _ => rfl⟩
    · next h => exact ⟨(fun h2 => nomatch h2), fun h2 => absurd h2 h⟩
  · rw [show (it.kv_it_lower_bound key).2 = (it.kv_it_lower_bound key).1.kv_it_status from rfl,
      kv_it_status_of_not_erased _ (by simp [kv_iterator_rocksdb.kv_it_lower_bound])]
    simp only [kv_iterator_rocksdb.kv_it_lower_bound]
    split
    · next h => exact ⟨(fun h2 => nomatch h2), fun h2 => absurd h2 (by omega)⟩
    · next h => exact ⟨fun _ => by omega, fun _ => rfl⟩

/-- C5 witness: a concrete erased cursor, a compatible healthy cursor, and a
seek key falling between the two stored keys. -/
theorem C5_erased_cursor_ops_witness :
    erasedItC5.kv_it_next = .error "Iterator to erased element" ∧
    erasedItC5.kv_it_prev = .error "Iterator to erased element" ∧
    erasedItC5.kv_it_compare rhsItC5 = .error "Iterator to erased element" ∧
    erasedItC5.kv_it_key_compare [2] = .error "Iterator to erased element" ∧
    erasedItC5.kv_it_key 0 4 = .error "Iterator to erased element" ∧
    erasedItC5.kv_it_value 0 4 = .error "Iterator to erased element" ∧
    erasedItC5.kv_it_move_to_end.2 = .iterator_end ∧
    erasedItC5.kv_it_move_to_end.1.kv_it_status = .iterator_end ∧
    (erasedItC5.kv_it_lower_bound [2]).1.erased = false ∧
    (erasedItC5.kv_it_lower_bound [2]).1.entries = erasedItC5.entries ∧
    (∀ j, j < (erasedItC5.kv_it_lower_bound [2]).1.pos →
      ∃ e, erasedItC5.entries[j]? = some e ∧ byteLtB e.1 [2] = true) ∧
    (∀ e, erasedItC5.entries[(erasedItC5.kv_it_lower_bound [2]).1.pos]? = some e →
      byteLtB e.1 [2] = false) ∧
    ((erasedItC5.kv_it_lower_bound [2]).2 = .iterator_end ↔
      erasedItC5.entries.length ≤ (erasedItC5.kv_it_lower_bound [2]).1.pos) ∧
    ((erasedItC5.kv_it_lower_bound [2]).2 = .iterator_ok ↔
      (erasedItC5.kv_it_lower_bound [2]).1.pos < erasedItC5.entries.length) :=
  C5_erased_cursor_ops erasedItC5 rhsItC5 [2] 0 4 (by decide) rfl rfl

/-! ### Token allocation helpers -/

theorem kvdisk_ne_kvram : kvdisk_id ≠ kvram_id := by decide

theorem tierOf_kvram : tierOf kvram_id = .ok Tier.ram := by
  unfold tierOf
  rw [if_pos rfl]

theorem tierOf_kvdisk : tierOf kvdisk_id = .ok Tier.disk := by
  unfold tierOf
  rw [if_neg kvdisk_ne_kvram, if_pos rfl]

theorem mem_of_getLast?_eq {α : Type} {l : List α} {a : α} (h : l.getLast? = some a) :
    a ∈ l := by
  obtain ⟨hne, ha⟩ := List.mem_getLast?_eq_getLast (Option.mem_def.mpr h)
  subst ha
  exact List.getLast_mem hne

theorem getDb_with_destroyed (s : db_view_state) (ld : List Nat) (t : Tier) :
    getDb { s with kv_destroyed_iterators := ld } t = getDb s t := by
  cases t <;> rfl

theorem getDb_with_iterators (s : db_view_state) (li : List (Option kv_iterator_rocksdb))
    (t : Tier) : getDb { s with kv_iterators := li } t = getDb s t := by
  cases t <;> rfl

theorem getDb_mk_lists (s : db_view_state) (li : List (Option kv_iterator_rocksdb))
    (ld : List Nat) (t : Tier) :
    getDb { s with kv_iterators := li, kv_destroyed_iterators := ld } t = getDb s t := by
  cases t <;> rfl

theorem kv_destroyed_setDb (s : db_view_state) (t : Tier) (c : kv_context_rocksdb) :
    (setDb s t c).kv_destroyed_iterators = s.kv_destroyed_iterators := by
  cases t <;> rfl

theorem kv_iterators_setDb (s : db_view_state) (t : Tier) (c : kv_context_rocksdb) :
    (setDb s t c).kv_iterators = s.kv_iterators := by
  cases t <;> rfl

theorem limits_setDb (s : db_view_state) (t : Tier) (c : kv_context_rocksdb) :
    (setDb s t c).limits = s.limits := by
  cases t <;> rfl

theorem kv_it_create_ctx_ok (ctx : kv_context_rocksdb) (t : Tier) (c : Nat) (p : Bytes)
    (h : ctx.num_iterators < ctx.limits.max_iterators) :
    ctx.kv_it_create t c p =
      .ok ({ db := t, contract := c, pfx := p,
             entries := inRangeEntries ctx.store c p,
             pos := (inRangeEntries ctx.store c p).length, erased := false },
           { ctx with num_iterators := ctx.num_iterators + 1 }) := by
  simp only [kv_context_rocksdb.kv_it_create, if_pos h]

theorem kv_it_create_ctx_err (ctx : kv_context_rocksdb) (t : Tier) (c : Nat) (p : Bytes)
    (h : ¬ ctx.num_iterators < ctx.limits.max_iterators) :
    ctx.kv_it_create t c p = .error "Too many iterators" := by
  simp only [kv_context_rocksdb.kv_it_create, if_neg h]

theorem WF_mk_db_view_state : WF (mk_db_view_state 11 [] []) :=
  ⟨by decide, by decide, by decide, by decide, by decide, by decide, by decide,
   by decide, by decide, by decide, by decide, by decide, by decide, by decide⟩

/-! ### C3: token reuse order (corrected: the free list is a LIFO stack) -/

/-- C3 counterexample: tokens 1 and 2 destroyed in that order leave the free
list [1, 2]; the lowest available destroyed index is 1, yet `kv_it_create`
returns token 2 — the back (most recently destroyed entry) of the free list,
not the lowest. -/
theorem C3_counterexample :
    (db_callbacks.kv_it_create c3State kvram_id 11 []).1 = .ok 2 ∧
    c3State.kv_destroyed_iterators.min? = some 1 :=
  ⟨rfl, by decide⟩

/-- C3 (amended): when the free list is non-empty, `kv_it_create` reuses the
most recently destroyed index (the back of the free list) as the returned
token; when the free list is empty it appends a new slot at the end of the
slot sequence and returns its index; in every case the returned token is
never 0. -/
theorem C3_token_allocation (s : db_view_state) (hWF : WF s) (db c : Nat) (p : Bytes)
    (tok : Nat) (s2 : db_view_state)
    (hok : db_callbacks.kv_it_create s db c p = (.ok tok, s2)) :
    (∀ i, s.kv_destroyed_iterators.getLast? = some i → tok = i) ∧
    (s.kv_destroyed_iterators = [] → tok = s.kv_iterators.length) ∧
    tok ≠ 0 := by
  simp only [db_callbacks.kv_it_create] at hok
  split at hok
  · cases hok
  · split at hok
    · rename_i i hlast
      split at hok
      · cases hok
      · cases hok
        have hmem := mem_of_getLast?_eq hlast
        have hrange := hWF.destroyedRange tok hmem
        refine ⟨fun j hj => ?_, fun hnil => ?_, by omega⟩
        · rw [hlast] at hj
          cases hj
          rfl
        · rw [hnil] at hlast
          cases hlast
    · rename_i hlast
      split at hok
      · split at hok
        · cases hok
        · cases hok
          have hpos := hWF.lenPos
          exact ⟨fun j hj => (by rw [hlast] at hj; cases hj), fun _ => rfl, by omega⟩
      · cases hok

/-- C3 (amended) witness: the first creation on a fresh session appends and
returns token 1. -/
theorem C3_token_allocation_witness :
    (∀ i, (mk_db_view_state 11 [] []).kv_destroyed_iterators.getLast? = some i → 1 = i) ∧
    ((mk_db_view_state 11 [] []).kv_destroyed_iterators = [] →
      1 = (mk_db_view_state 11 [] []).kv_iterators.length) ∧
    (1 : Nat) ≠ 0 :=
  C3_token_allocation (mk_db_view_state 11 [] []) WF_mk_db_view_state kvram_id 11 [] 1
    mkAfterCreate rfl

/-! ### C4: the iterator budget (corrected: enforced per tier, not per session) -/

theorem getDb_limits (s : db_view_state) (hWF : WF s) (t : Tier) :
    (getDb s t).limits = s.limits := by
  cases t
  · exact hWF.ramLimits
  · exact hWF.diskLimits

theorem getDb_num_le (s : db_view_state) (hWF : WF s) (t : Tier) :
    (getDb s t).num_iterators ≤ s.limits.max_iterators := by
  cases t
  · exact hWF.ramLe
  · exact hWF.diskLe

theorem getDb_num_eq_countTier (s : db_view_state) (hWF : WF s) (t : Tier) :
    (getDb s t).num_iterators = countTier s t := by
  cases t
  · exact hWF.ramCount
  · exact hWF.diskCount

theorem countTier_pos_of_slot (s : db_view_state) (i : Nat) (it : kv_iterator_rocksdb)
    (h : s.kv_iterators.getD i none = some it) : 0 < countTier s it.db := by
  apply List.countP_pos_iff.mpr
  refine ⟨some it, ?_, by simp⟩
  rw [List.getD_eq_getElem?_getD] at h
  cases hn : s.kv_iterators[i]? with
  | none => rw [hn] at h; cases h
  | some o =>
    rw [hn] at h
    simp only [Option.getD_some] at h
    subst h
    exact List.mem_iff_getElem?.mpr ⟨i, hn⟩

theorem kv_it_create_pop_ok (s2 : db_view_state) (db c : Nat) (p : Bytes) (t : Tier) (i : Nat)
    (ht : tierOf db = .ok t)
    (hlast : s2.kv_destroyed_iterators.getLast? = some i)
    (hlt : (getDb s2 t).num_iterators < (getDb s2 t).limits.max_iterators) :
    ∃ tok s3, db_callbacks.kv_it_create s2 db c p = (.ok tok, s3) := by
  simp only [db_callbacks.kv_it_create, ht, hlast]
  rw [kv_it_create_ctx_ok _ t c p (by rw [getDb_with_destroyed]; exact hlt)]
  exact ⟨_, _, rfl⟩

theorem kv_it_create_ok_of_lt (s : db_view_state) (hWF : WF s) (db c : Nat) (p : Bytes)
    (t : Tier) (ht : tierOf db = .ok t)
    (hlt : (getDb s t).num_iterators < s.limits.max_iterators) :
    ∃ tok s3, db_callbacks.kv_it_create s db c p = (.ok tok, s3) := by
  have hcond : ∀ s1 : db_view_state, getDb s1 t = getDb s t →
      (getDb s1 t).num_iterators < (getDb s1 t).limits.max_iterators := by
    intro s1 h1
    rw [h1, getDb_limits s hWF t]
    exact hlt
  simp only [db_callbacks.kv_it_create, ht]
  cases hlast : s.kv_destroyed_iterators.getLast? with
  | some i =>
    rw [kv_it_create_ctx_ok _ t c p (hcond _ (getDb_with_destroyed s _ t))]
    exact ⟨_, _, rfl⟩
  | none =>
    rw [if_pos hWF.lenBound,
      kv_it_create_ctx_ok _ t c p (hcond _ (getDb_with_iterators s _ t))]
    exact ⟨_, _, rfl⟩

theorem c4State_iterators :
    c4State.kv_iterators = none :: List.replicate 1024 (some itInitMk) := rfl

theorem c4State_len : c4State.kv_iterators.length = 1025 := by
  rw [c4State_iterators, List.length_cons, List.length_replicate]

theorem WF_c4State : WF c4State := by
  refine ⟨?_, ?_, ?_, ?_, ?_, ?_, ?_, ?_, ?_, ?_, ?_, ?_, ?_, ?_⟩
  · rw [c4State_len]
    omega
  · rw [c4State_len]
    omega
  · rfl
  · exact List.nodup_nil
  · intro i hi
    exact absurd hi (List.not_mem_nil i)
  · intro i hi
    exact absurd hi (List.not_mem_nil i)
  · intro i hlt h1 hD
    exfalso
    rw [c4State_len] at hlt
    rcases i with _ | j
    · omega
    · rw [c4State_iterators, List.getD_cons_succ, List.getD_eq_getElem?_getD,
        List.getElem?_replicate, if_pos (by omega), Option.getD_some] at hD
      exact Option.noConfusion hD
  · show (1024 : Nat) = countTier c4State Tier.ram
    unfold countTier
    rw [c4State_iterators, List.countP_cons, List.countP_replicate]
    decide
  · show (0 : Nat) = countTier c4State Tier.disk
    unfold countTier
    rw [c4State_iterators, List.countP_cons, List.countP_replicate]
    decide
  · decide
  · decide
  · decide
  · decide
  · decide

/-- C4 counterexample: a session holding 1024 live ram-tier cursors — its
session-wide live-cursor count equals `max_iterators` — on which cursor
creation (routed to the disk tier) nevertheless succeeds, because the code
checks the selected view's own counter, not the session total. The state is
reachable by creating 1024 ram-tier cursors. -/
theorem C4_counterexample :
    sessionLiveCursors c4State = c4State.limits.max_iterators ∧
    (∃ tok s3, db_callbacks.kv_it_create c4State kvdisk_id 11 [] = (.ok tok, s3)) ∧
    WF c4State := by
  refine ⟨?_, ?_, WF_c4State⟩
  · unfold sessionLiveCursors
    rw [c4State_iterators, List.countP_cons, List.countP_replicate]
    decide
  · exact kv_it_create_ok_of_lt c4State WF_c4State kvdisk_id 11 [] Tier.disk
      tierOf_kvdisk (by decide)

/-- C4 (amended): cursor creation on a tier fails with the budget error
exactly when that tier's view already has `max_iterators` live cursors (each
tier's counter is independent); destroying a live cursor decrements its
tier's live-cursor count, after which a creation on that same tier
succeeds. -/
theorem C4_iterator_budget (s : db_view_state) (hWF : WF s) (db c : Nat) (p : Bytes)
    (t : Tier) (ht : tierOf db = .ok t) :
    ((db_callbacks.kv_it_create s db c p).1 = .error "Too many iterators" ↔
      (getDb s t).num_iterators = s.limits.max_iterators) ∧
    (∀ i it, s.kv_iterators.getD i none = some it →
      ∃ s2, db_callbacks.kv_it_destroy s i = .ok s2 ∧
        (getDb s2 it.db).num_iterators + 1 = (getDb s it.db).num_iterators ∧
        ∃ tok s3, db_callbacks.kv_it_create s2
          (if it.db = Tier.ram then kvram_id else kvdisk_id) c p = (.ok tok, s3)) := by
  constructor
  · constructor
    · intro herr
      by_contra hne
      have hlt : (getDb s t).num_iterators < s.limits.max_iterators :=
        Nat.lt_of_le_of_ne (getDb_num_le s hWF t) hne
      obtain ⟨tok, s3, hr⟩ := kv_it_create_ok_of_lt s hWF db c p t ht hlt
      rw [hr] at herr
      simp at herr
    · intro heq
      have hcond : ∀ s1 : db_view_state, getDb s1 t = getDb s t →
          ¬ (getDb s1 t).num_iterators < (getDb s1 t).limits.max_iterators := by
        intro s1 h1
        rw [h1, getDb_limits s hWF t, heq]
        omega
      simp only [db_callbacks.kv_it_create, ht]
      cases hlast : s.kv_destroyed_iterators.getLast? with
      | some i =>
        rw [kv_it_create_ctx_err _ t c p (hcond _ (getDb_with_destroyed s _ t))]
      | none =>
        rw [if_pos hWF.lenBound,
          kv_it_create_ctx_err _ t c p (hcond _ (getDb_with_iterators s _ t))]
  · intro i it hslot
    cases hdest : db_callbacks.kv_it_destroy s i with
    | error e =>
      simp only [db_callbacks.kv_it_destroy, hslot] at hdest
      cases hdest
    | ok s2 =>
      have horig : 0 < (getDb s it.db).num_iterators := by
        rw [getDb_num_eq_countTier s hWF it.db]
        exact countTier_pos_of_slot s i it hslot
      have hle := getDb_num_le s hWF it.db
      have ht2 : tierOf (if it.db = Tier.ram then kvram_id else kvdisk_id) = .ok it.db := by
        cases hd : it.db
        · rw [if_pos rfl]
          exact tierOf_kvram
        · rw [if_neg (by decide)]
          exact tierOf_kvdisk
      refine ⟨s2, rfl, ?_, ?_⟩
      · simp only [db_callbacks.kv_it_destroy, hslot] at hdest
        injection hdest with hdest2
        subst hdest2
        simp only [getDb_setDb, getDb_mk_lists]
        omega
      · simp only [db_callbacks.kv_it_destroy, hslot] at hdest
        injection hdest with hdest2
        subst hdest2
        apply kv_it_create_pop_ok _ _ c p it.db i ht2
        · rw [kv_destroyed_setDb]
          exact List.getLast?_concat _
        · simp only [getDb_setDb, getDb_mk_lists, getDb_limits s hWF it.db]
          omega

/-- C4 (amended) witness: `c4WitState` holds one live ram cursor; creation
does not hit the budget (the iff's right side is false there), and destroying
the slot-1 cursor then creating on the ram tier succeeds. -/
theorem C4_iterator_budget_witness :
    ((db_callbacks.kv_it_create c4WitState kvram_id 11 []).1 = .error "Too many iterators" ↔
      (getDb c4WitState Tier.ram).num_iterators = c4WitState.limits.max_iterators) ∧
    (∀ i it, c4WitState.kv_iterators.getD i none = some it →
      ∃ s2, db_callbacks.kv_it_destroy c4WitState i = .ok s2 ∧
        (getDb s2 it.db).num_iterators + 1 = (getDb c4WitState it.db).num_iterators ∧
        ∃ tok s3, db_callbacks.kv_it_create s2
          (if it.db = Tier.ram then kvram_id else kvdisk_id) 11 [] = (.ok tok, s3)) :=
  C4_iterator_budget c4WitState
    ⟨by decide, by decide, by decide, by decide, by decide, by decide, by decide,
     by decide, by decide, by decide, by decide, by decide, by decide, by decide⟩
    kvram_id 11 [] Tier.ram rfl

/-! ### C9: session reset (code bug: a budget-failed create leaks a slot) -/

theorem leakState_iterators_len : leakState.kv_iterators.length = 1026 := by
  simp only [leakState]
  rw [List.length_replicate]

theorem leakState_destroyed_len : leakState.kv_destroyed_iterators.length = 1024 := by
  simp only [leakState]
  rw [List.length_map, List.length_range]

/-- C9 (code bug): in the gateway `kv_it_create` the slot-table mutation
(`pop_back` of the free list or `emplace_back` of a new slot) precedes the
budget check that throws `Too many iterators`, so a budget-failed creation
leaks an empty slot that is on no free list. On `c4State` (1024 live
ram-tier cursors, the spec's property-5 scenario) a ram creation fails with
the budget error yet the returned session has gained empty slot 1025 while
the free list stayed empty; after all 1024 cursors are destroyed the session
is `leakState`, which holds zero live cursors and yet `reset` fails with the
iterators-still-alive error (1026 slots against a 1024-entry free list plus
the reserved slot) — and no recovery exists, since the leaked slot can never
be destroyed. This contradicts the claim's (and the spec's §4.3/§5/§7)
"reset succeeds once every created cursor has been destroyed". -/
theorem C9_reset_leak :
    (db_callbacks.kv_it_create c4State kvram_id 11 []).1 = .error "Too many iterators" ∧
    (db_callbacks.kv_it_create c4State kvram_id 11 []).2.kv_iterators =
      c4State.kv_iterators ++ [none] ∧
    (db_callbacks.kv_it_create c4State kvram_id 11 []).2.kv_destroyed_iterators = [] ∧
    sessionLiveCursors leakState = 0 ∧
    db_view_state.reset leakState = .error "iterators are still alive" := by
  have hcreate : db_callbacks.kv_it_create c4State kvram_id 11 [] =
      (.error "Too many iterators",
       { c4State with kv_iterators := c4State.kv_iterators ++ [none] }) := by
    simp only [db_callbacks.kv_it_create, tierOf_kvram,
      show c4State.kv_destroyed_iterators.getLast? = none from rfl]
    rw [if_pos (by rw [c4State_len]; decide),
      kv_it_create_ctx_err _ Tier.ram 11 [] (by rw [getDb_with_iterators]; decide)]
  refine ⟨by rw [hcreate], by rw [hcreate], by rw [hcreate]; rfl, ?_, ?_⟩
  · unfold sessionLiveCursors
    simp only [leakState]
    rw [List.countP_replicate]
    decide
  · have h1 := leakState_iterators_len
    have h2 := leakState_destroyed_len
    unfold db_view_state.reset
    rw [if_neg (by omega)]

end StateHistoryRdb
